import Mathlib

/-!
Shallow embedding of the MarkdownToPDF editor (src/src/App.jsx) in Lean 4.

The program is a React single-page Markdown editor.  Its own logic —
the part this development models — is the wiring in the `App` component:

* session state (`markdown`, `pdfLoading`, `fullscreen`, `zoom`,
  `editorZoom`) initialised from `localStorage`;
* `useEffect` hooks mirroring `markdown` / `zoom` / `editorZoom`
  back into `localStorage`;
* the handlers `handleDownloadPdf`, `handleUpload`, `handleClear`,
  `handleZoomIn`, `handleZoomOut`, `handleEditorZoomIn`,
  `handleEditorZoomOut`;
* the toolbar controls, in particular the export button which is
  rendered with `disabled={pdfLoading}`.

JavaScript numbers that arise here are integers except for the `NaN`
produced by `Number` applied to a non-numeric string, so numbers are
modelled by `JSNum` (an integer or NaN).  `localStorage` is modelled as a
partial map from string keys to string values.  External libraries
(mammoth, turndown, html2pdf) are modelled as parameters or as abstract
events, since their internals are outside this repository.
-/

/-- A JavaScript number as it occurs in this program: an integer, or NaN
(produced by `Number` on a non-numeric string). -/
inductive JSNum where
  | num (n : Int)
  | nan
deriving DecidableEq, Repr

/-- JavaScript `+` on numbers: NaN propagates. -/
def jsAdd : JSNum → JSNum → JSNum
  | JSNum.num a, JSNum.num b => JSNum.num (a + b)
  | _, _ => JSNum.nan

/-- JavaScript `-` on numbers: NaN propagates. -/
def jsSub : JSNum → JSNum → JSNum
  | JSNum.num a, JSNum.num b => JSNum.num (a - b)
  | _, _ => JSNum.nan

/-- `Math.min`: returns NaN if either argument is NaN. -/
def jsMin : JSNum → JSNum → JSNum
  | JSNum.num a, JSNum.num b => JSNum.num (min a b)
  | _, _ => JSNum.nan

/-- `Math.max`: returns NaN if either argument is NaN. -/
def jsMax : JSNum → JSNum → JSNum
  | JSNum.num a, JSNum.num b => JSNum.num (max a b)
  | _, _ => JSNum.nan

/-- Decimal digit test for the `Number` model. -/
def isDecDigit (c : Char) : Bool :=
  48 ≤ c.toNat && c.toNat ≤ 57

/-- A nonempty all-digit character list. -/
def decDigits (l : List Char) : Bool :=
  !l.isEmpty && l.all isDecDigit

/-- Value of a digit list, most significant first. -/
def natOfDigits (l : List Char) : Nat :=
  l.foldl (fun a c => 10 * a + (c.toNat - 48)) 0

/-- Model of the JavaScript `Number` string-to-number coercion, restricted
to the numerals this program can encounter: `Number "" = 0`, an optionally
signed decimal-integer numeral evaluates to its value, and every other
string is NaN.  (The program only ever stores `String(zoom)` of an
integer, so the restriction to integer numerals is exact on the values the
program itself writes; a non-numeric string such as `"abc"` is NaN exactly
as in JavaScript.) -/
def jsNumber (s : String) : JSNum :=
  if s = "" then JSNum.num 0
  else
    match s.data with
    | '-' :: rest =>
        if decDigits rest then JSNum.num (-(natOfDigits rest : Int)) else JSNum.nan
    | '+' :: rest =>
        if decDigits rest then JSNum.num (natOfDigits rest) else JSNum.nan
    | l => if decDigits l then JSNum.num (natOfDigits l) else JSNum.nan

/-- The browser `localStorage`: a partial map from string keys to string
values.  `getItem` returns `none` where JavaScript returns `null`. -/
def Store : Type := String → Option String

/-- `localStorage.getItem`. -/
def getItem (store : Store) (key : String) : Option String := store key

/-- `localStorage.setItem`. -/
def setItem (store : Store) (key value : String) : Store :=
  fun k => if k = key then some value else store k

/-- A fresh storage with nothing persisted. -/
def emptyStore : Store := fun _ => none

/-- `const STORAGE_KEY = 'markdown-editor-content'` (App.jsx:130). -/
def STORAGE_KEY : String := "markdown-editor-content"

/-- `const ZOOM_KEY = 'markdown-editor-zoom'` (App.jsx:131). -/
def ZOOM_KEY : String := "markdown-editor-zoom"

/-- `const EDITOR_ZOOM_KEY = 'markdown-editor-editor-zoom'` (App.jsx:132). -/
def EDITOR_ZOOM_KEY : String := "markdown-editor-editor-zoom"

/-- `const ZOOM_MIN = 60` (App.jsx:133). -/
def ZOOM_MIN : Int := 60

/-- `const ZOOM_MAX = 160` (App.jsx:134). -/
def ZOOM_MAX : Int := 160

/-- `const ZOOM_STEP = 10` (App.jsx:135). -/
def ZOOM_STEP : Int := 10

/-- `const ZOOM_DEFAULT = 100` (App.jsx:136). -/
def ZOOM_DEFAULT : Int := 100

/-- The built-in sample document `DEFAULT_CONTENT` (App.jsx:12-128),
the template literal reproduced verbatim. -/
def DEFAULT_CONTENT : String := "# Markdown + LaTeX: Guía Experta\n\nBienvenido a **MarkdownToPDF**. Este editor renderiza Markdown con soporte matemático completo vía **KaTeX**. Todo lo que ves aquí se exporta a PDF con fidelidad tipográfica.\n\n---\n\n## 1. Formato de texto\n\nEl texto puede ser **negrita**, *cursiva*, ~~tachado~~ o `código inline`. También puedes combinar ***negrita y cursiva***.\n\n> \"La matemática es el lenguaje con el que Dios ha escrito el universo.\"\n> — *Galileo Galilei*\n\n---\n\n## 2. Matemáticas en línea\n\nLas expresiones inline se delimitan con `$...$`:\n\nLa identidad de Euler, $e^\x7bi\\pi\x7d + 1 = 0$, es considerada la más bella de las matemáticas.\n\nLa fórmula cuadrática para $ax^2 + bx + c = 0$ es $x = \\dfrac\x7b-b \\pm \\sqrt\x7bb^2 - 4ac\x7d\x7d\x7b2a\x7d$.\n\nLa derivada de la función gaussiana es $\\frac\x7bd\x7d\x7bdx\x7de^\x7b-x^2\x7d = -2x\\,e^\x7b-x^2\x7d$.\n\n---\n\n## 3. Bloques matemáticos\n\nPara ecuaciones centradas usa `$$...$$`:\n\n$$\\int_\x7b-\\infty\x7d^\x7b\\infty\x7d e^\x7b-x^2\x7d\\, dx = \\sqrt\x7b\\pi\x7d$$\n\nLas ecuaciones de Maxwell en forma diferencial:\n\n$$\\nabla \\cdot \\mathbf\x7bE\x7d = \\frac\x7b\\rho\x7d\x7b\\varepsilon_0\x7d, \\qquad \\nabla \\times \\mathbf\x7bB\x7d = \\mu_0 \\mathbf\x7bJ\x7d + \\mu_0\\varepsilon_0 \\frac\x7b\\partial \\mathbf\x7bE\x7d\x7d\x7b\\partial t\x7d$$\n\nLa transformada de Fourier:\n\n$$\\hat\x7bf\x7d(\\xi) = \\int_\x7b-\\infty\x7d^\x7b\\infty\x7d f(x)\\, e^\x7b-2\\pi i x\\xi\x7d\\, dx$$\n\n---\n\n## 4. Listas\n\n### Conceptos clave\n\n- **Álgebra lineal:** vectores, matrices, autovalores $\\lambda$\n- **Cálculo:** límites, derivadas $\\frac\x7bdf\x7d\x7bdx\x7d$, integrales $\\int_a^b f\\,dx$\n  - Regla de la cadena: $\\frac\x7bd\x7d\x7bdx\x7d[f(g(x))] = f'(g(x))\\cdot g'(x)$\n  - Teorema fundamental: $\\int_a^b f'(x)\\,dx = f(b) - f(a)$\n- **Estadística:** distribuciones, esperanza $\\mathbb\x7bE\x7d[X]$, varianza $\\text\x7bVar\x7d(X)$\n\n### Pasos para resolver $\\nabla^2 \\phi = 0$\n\n1. Separar variables: $\\phi(r, \\theta) = R(r)\\,\\Theta(\\theta)$\n2. Aplicar condiciones de contorno\n3. Expandir en serie de Fourier: $\\phi = \\sum_\x7bn=0\x7d^\x7b\\infty\x7d a_n r^n \\cos(n\\theta)$\n4. Determinar los coeficientes $a_n$ por ortogonalidad\n\n### Progreso\n\n- [x] Configurar KaTeX para renderizado matemático\n- [x] Soporte para bloques de código con resaltado\n- [ ] Numeración automática de ecuaciones\n\n---\n\n## 5. Código\n\n```python\nimport numpy as np\n\ndef gaussiana(x, mu=0, sigma=1):\n    \"\"\"Función de densidad normal N(mu, sigma^2).\"\"\"\n    return np.exp(-0.5 * ((x - mu) / sigma)**2) / (sigma * np.sqrt(2 * np.pi))\n\nx = np.linspace(-4, 4, 1000)\ny = gaussiana(x)\n```\n\n```latex\n% Ecuación de Schrödinger independiente del tiempo\n\\hat\x7bH\x7d\\psi = E\\psi \\quad \\Rightarrow \\quad\n-\\frac\x7b\\hbar^2\x7d\x7b2m\x7d\\nabla^2\\psi + V\\psi = E\\psi\n```\n\n---\n\n## 6. Referencia de símbolos LaTeX\n\n| Símbolo | Nombre | Código LaTeX |\n| :--- | :--- | :--- |\n| $\\alpha,\\, \\beta,\\, \\gamma$ | Letras griegas | `\\alpha`, `\\beta`, `\\gamma` |\n| $\\nabla$ | Nabla / operador del | `\\nabla` |\n| $\\partial$ | Derivada parcial | `\\partial` |\n| $\\infty$ | Infinito | `\\infty` |\n| $\\mathbb\x7bR\x7d,\\,\\mathbb\x7bC\x7d$ | Conjuntos numéricos | `\\mathbb\x7bR\x7d`, `\\mathbb\x7bC\x7d` |\n| $\\sum_\x7bi=1\x7d^\x7bn\x7d i$ | Sumatoria | `\\sum_\x7bi=1\x7d^\x7bn\x7d` |\n| $\\prod_\x7bk=1\x7d^\x7bn\x7d k$ | Productoria | `\\prod_\x7bk=1\x7d^\x7bn\x7d` |\n| $\\lim_\x7bx \\to 0\x7d$ | Límite | `\\lim_\x7bx \\to 0\x7d` |\n\n---\n\n## 7. Distribución normal y estadística\n\nLa distribución $X \\sim \\mathcal\x7bN\x7d(\\mu, \\sigma^2)$ tiene función de densidad:\n\n$$f(x) = \\frac\x7b1\x7d\x7b\\sigma\\sqrt\x7b2\\pi\x7d\x7d \\exp\\!\\left(-\\frac\x7b(x-\\mu)^2\x7d\x7b2\\sigma^2\x7d\\right)$$\n\nSu función característica es $\\varphi(t) = \\exp\\!\\left(i\\mu t - \\frac\x7b\\sigma^2 t^2\x7d\x7b2\x7d\\right)$.\n\nEl estimador de máxima verosimilitud de $\\mu$ es simplemente $\\hat\x7b\\mu\x7d = \\bar\x7bx\x7d = \\frac\x7b1\x7d\x7bn\x7d\\sum_\x7bi=1\x7d^n x_i$.\n\n---\n\n*Edita este documento o importa tu propio archivo `.md` / `.docx` — y exporta a PDF con el botón de descarga.*"

/-- The in-memory state owned by the `App` component: the five `useState`
hooks `markdown`, `pdfLoading`, `fullscreen`, `zoom`, `editorZoom`
(App.jsx:142-154). -/
structure AppState where
  markdown : String
  pdfLoading : Bool
  fullscreen : Bool
  zoom : JSNum
  editorZoom : JSNum
deriving DecidableEq, Repr

/-- JavaScript `a || b` where `a` is a string-or-null: the empty string
and `null` are falsy, so both fall through to `b`.  Models
`localStorage.getItem(STORAGE_KEY) || DEFAULT_CONTENT` (App.jsx:143). -/
def jsOrDefault (v : Option String) (d : String) : String :=
  match v with
  | none => d
  | some s => if s = "" then d else s

/-- JavaScript `saved ? Number(saved) : ZOOM_DEFAULT` where `saved` is a
string-or-null: `null` and `""` are falsy and give the default, any other
string is coerced with `Number` (App.jsx:147-154). -/
def jsTernNumber (v : Option String) (d : JSNum) : JSNum :=
  match v with
  | none => d
  | some s => if s = "" then d else jsNumber s

/-- Session start: the `useState` initializers of the `App` component read
the persisted values (App.jsx:142-154).  `pdfLoading` and `fullscreen`
start `false`. -/
def initApp (store : Store) : AppState :=
  { markdown := jsOrDefault (getItem store STORAGE_KEY) DEFAULT_CONTENT
    pdfLoading := false
    fullscreen := false
    zoom := jsTernNumber (getItem store ZOOM_KEY) (JSNum.num ZOOM_DEFAULT)
    editorZoom := jsTernNumber (getItem store EDITOR_ZOOM_KEY) (JSNum.num ZOOM_DEFAULT) }

/-- `setMarkdown(t)`: used by the editor change handler
`onChange={(e) => setMarkdown(e.target.value)}` (App.jsx:289) and by
the upload / clear handlers. -/
def setText (st : AppState) (t : String) : AppState :=
  { st with markdown := t }

/-- The persistence effect
`useEffect(() => { localStorage.setItem(STORAGE_KEY, markdown) }, [markdown])`
(App.jsx:160-162): after a text change, the store mirrors the current
markdown. -/
def persistMarkdown (st : AppState) (store : Store) : Store :=
  setItem store STORAGE_KEY st.markdown

/-- `handleClear` (App.jsx:229-233): `window.confirm(...)` gates
`setMarkdown('')`; the prompt outcome is the `confirmed` argument. -/
def handleClear (confirmed : Bool) (st : AppState) : AppState :=
  if confirmed then setText st "" else st

/-- The update function of `handleZoomIn` (App.jsx:235-237):
`(prev) => Math.min(prev + ZOOM_STEP, ZOOM_MAX)`. -/
def zoomInCalc (z : JSNum) : JSNum :=
  jsMin (jsAdd z (JSNum.num ZOOM_STEP)) (JSNum.num ZOOM_MAX)

/-- The update function of `handleZoomOut` (App.jsx:239-241):
`(prev) => Math.max(prev - ZOOM_STEP, ZOOM_MIN)`. -/
def zoomOutCalc (z : JSNum) : JSNum :=
  jsMax (jsSub z (JSNum.num ZOOM_STEP)) (JSNum.num ZOOM_MIN)

/-- `handleZoomIn` (App.jsx:235-237). -/
def handleZoomIn (st : AppState) : AppState :=
  { st with zoom := zoomInCalc st.zoom }

/-- `handleZoomOut` (App.jsx:239-241). -/
def handleZoomOut (st : AppState) : AppState :=
  { st with zoom := zoomOutCalc st.zoom }

/-- `handleEditorZoomIn` (App.jsx:243-245). -/
def handleEditorZoomIn (st : AppState) : AppState :=
  { st with editorZoom := zoomInCalc st.editorZoom }

/-- `handleEditorZoomOut` (App.jsx:247-249). -/
def handleEditorZoomOut (st : AppState) : AppState :=
  { st with editorZoom := zoomOutCalc st.editorZoom }

/-- One zoom adjustment: which of the four zoom handlers fires. -/
inductive ZoomOp where
  | previewIn
  | previewOut
  | editorIn
  | editorOut
deriving DecidableEq, Repr

/-- Dispatch one zoom adjustment to its handler. -/
def applyZoomOp : ZoomOp → AppState → AppState
  | ZoomOp.previewIn, st => handleZoomIn st
  | ZoomOp.previewOut, st => handleZoomOut st
  | ZoomOp.editorIn, st => handleEditorZoomIn st
  | ZoomOp.editorOut, st => handleEditorZoomOut st

/-- Apply a sequence of zoom adjustments in dispatch order. -/
def applyZoomOps (ops : List ZoomOp) (st : AppState) : AppState :=
  ops.foldl (fun s op => applyZoomOp op s) st

/-- JavaScript `String.prototype.endsWith`, as used in
`file.name.endsWith('.docx')` (App.jsx:216): the suffix's characters are a
suffix of the string's characters. -/
def jsEndsWith (s sfx : String) : Bool := sfx.data.isSuffixOf s.data

/-- A user-selected file as `handleUpload` sees it: its `name`, and its
decoded content (`none` models an unreadable file — `file.arrayBuffer()`
rejecting on the `.docx` path, or the `FileReader` erroring so that
`onload` never fires on the plain-text path). -/
structure JSFile where
  name : String
  content : Option String
deriving DecidableEq, Repr

/-- `handleUpload` (App.jsx:212-227).  `mammothConvertToHtml` models
`mammoth.convertToHtml` (an external library; `none` is a rejected
promise on a corrupt container), `turndown` models
`new TurndownService(...).turndown` (total HTML-to-Markdown conversion).
If the selected file is absent, unreadable, or its `.docx` decode fails,
no `setMarkdown` call is reached and the state is returned unchanged. -/
def handleUpload (mammothConvertToHtml : String → Option String)
    (turndown : String → String)
    (file : Option JSFile) (st : AppState) : AppState :=
  match file with
  | none => st
  | some f =>
    if jsEndsWith f.name ".docx" then
      match f.content with
      | none => st
      | some buf =>
        match mammothConvertToHtml buf with
        | none => st
        | some html => setText st (turndown html)
    else
      match f.content with
      | none => st
      | some text => setText st text

/-- The export subsystem around `handleDownloadPdf` (App.jsx:191-210) and
the export buttons (App.jsx:326-334, 383-391).  Besides the component
state it tracks two observables of the environment: `inFlight`, the number
of export promises started and not yet settled, and `downloads`, the
number of files saved to disk (one per `html2pdf ... .save()` that
resolves). -/
structure ExportSys where
  app : AppState
  inFlight : Nat
  downloads : Nat
deriving DecidableEq, Repr

/-- A click on an export button.  The button is rendered with
`disabled={pdfLoading}` (App.jsx:329, 387), so a click while an export is
in progress never reaches `handleDownloadPdf`.  Otherwise the handler
runs: it returns early if the render-target element is absent
(`if (!element) return`, App.jsx:193), else it sets `pdfLoading` to
`true` and starts the asynchronous export (App.jsx:194-204). -/
def clickDownloadPdf (hasElement : Bool) (s : ExportSys) : ExportSys :=
  if s.app.pdfLoading then s
  else if hasElement then
    { s with app := { s.app with pdfLoading := true }, inFlight := s.inFlight + 1 }
  else s

/-- Settlement of one in-flight export promise.  On resolution the saved
file has been downloaded; on rejection the `catch` block logs the error
and no file is written (App.jsx:205-206).  On both paths the `finally`
block runs `setPdfLoading(false)` (App.jsx:207-209). -/
def settlePdf (ok : Bool) (s : ExportSys) : ExportSys :=
  { s with
    app := { s.app with pdfLoading := false }
    inFlight := s.inFlight - 1
    downloads := if ok then s.downloads + 1 else s.downloads }

/-- A zoom value that is an integer within `[ZOOM_MIN, ZOOM_MAX]`. -/
def zoomInRange (z : JSNum) : Prop :=
  ∃ n : Int, z = JSNum.num n ∧ ZOOM_MIN ≤ n ∧ n ≤ ZOOM_MAX

/-- Strengthened zoom invariant: in range and a multiple of `ZOOM_STEP`
(every value reachable from `ZOOM_DEFAULT` by the handlers has this
shape). -/
def zoomInv (z : JSNum) : Prop :=
  ∃ n : Int, z = JSNum.num n ∧ ZOOM_MIN ≤ n ∧ n ≤ ZOOM_MAX ∧ ZOOM_STEP ∣ n

/-- One adjustment moved the value by exactly `ZOOM_STEP`, or left it
unchanged at a bound. -/
def stepAdjusts (z z' : JSNum) : Prop :=
  ∃ n : Int, z = JSNum.num n ∧
    (z' = JSNum.num (n + ZOOM_STEP) ∨ z' = JSNum.num (n - ZOOM_STEP) ∨
      (z' = z ∧ (n = ZOOM_MIN ∨ n = ZOOM_MAX)))

/-- Both zoom components satisfy the strengthened invariant. -/
def stateZoomInv (st : AppState) : Prop :=
  zoomInv st.zoom ∧ zoomInv st.editorZoom

/-- The zoom component a `ZoomOp` targets obeys `stepAdjusts` and the
other component is untouched. -/
def opAdjusts (op : ZoomOp) (st st' : AppState) : Prop :=
  match op with
  | ZoomOp.previewIn => stepAdjusts st.zoom st'.zoom ∧ st'.editorZoom = st.editorZoom
  | ZoomOp.previewOut => stepAdjusts st.zoom st'.zoom ∧ st'.editorZoom = st.editorZoom
  | ZoomOp.editorIn => stepAdjusts st.editorZoom st'.editorZoom ∧ st'.zoom = st.zoom
  | ZoomOp.editorOut => stepAdjusts st.editorZoom st'.editorZoom ∧ st'.zoom = st.zoom

lemma zoomInCalc_num (n : Int) :
    zoomInCalc (JSNum.num n) = JSNum.num (min (n + ZOOM_STEP) ZOOM_MAX) := rfl

lemma zoomOutCalc_num (n : Int) :
    zoomOutCalc (JSNum.num n) = JSNum.num (max (n - ZOOM_STEP) ZOOM_MIN) := rfl

lemma zoomInCalc_pres {z : JSNum} (h : zoomInv z) :
    zoomInv (zoomInCalc z) ∧ stepAdjusts z (zoomInCalc z) := by
  obtain ⟨n, rfl, hmin, hmax, hdvd⟩ := h
  rw [zoomInCalc_num]
  simp only [zoomInv, stepAdjusts, ZOOM_MIN, ZOOM_MAX, ZOOM_STEP] at hmin hmax hdvd ⊢
  by_cases hc : n + 10 ≤ 160
  · rw [min_eq_left hc]
    exact ⟨⟨n + 10, rfl, by omega, hc, by omega⟩, ⟨n, rfl, Or.inl rfl⟩⟩
  · have h160 : n = 160 := by omega
    rw [min_eq_right (by omega)]
    subst h160
    exact ⟨⟨160, rfl, by omega, le_refl _, by decide⟩,
      ⟨160, rfl, Or.inr (Or.inr ⟨rfl, Or.inr rfl⟩)⟩⟩

lemma zoomOutCalc_pres {z : JSNum} (h : zoomInv z) :
    zoomInv (zoomOutCalc z) ∧ stepAdjusts z (zoomOutCalc z) := by
  obtain ⟨n, rfl, hmin, hmax, hdvd⟩ := h
  rw [zoomOutCalc_num]
  simp only [zoomInv, stepAdjusts, ZOOM_MIN, ZOOM_MAX, ZOOM_STEP] at hmin hmax hdvd ⊢
  by_cases hc : 60 ≤ n - 10
  · rw [max_eq_left hc]
    exact ⟨⟨n - 10, rfl, hc, by omega, by omega⟩, ⟨n, rfl, Or.inr (Or.inl rfl)⟩⟩
  · have h60 : n = 60 := by omega
    rw [max_eq_right (by omega)]
    subst h60
    exact ⟨⟨60, rfl, le_refl _, by decide, by decide⟩,
      ⟨60, rfl, Or.inr (Or.inr ⟨rfl, Or.inl rfl⟩)⟩⟩

lemma applyZoomOp_pres (op : ZoomOp) {st : AppState} (h : stateZoomInv st) :
    stateZoomInv (applyZoomOp op st) := by
  obtain ⟨h1, h2⟩ := h
  cases op
  · exact ⟨(zoomInCalc_pres h1).1, h2⟩
  · exact ⟨(zoomOutCalc_pres h1).1, h2⟩
  · exact ⟨h1, (zoomInCalc_pres h2).1⟩
  · exact ⟨h1, (zoomOutCalc_pres h2).1⟩

lemma applyZoomOp_adjusts (op : ZoomOp) {st : AppState} (h : stateZoomInv st) :
    opAdjusts op st (applyZoomOp op st) := by
  obtain ⟨h1, h2⟩ := h
  cases op
  · exact ⟨(zoomInCalc_pres h1).2, rfl⟩
  · exact ⟨(zoomOutCalc_pres h1).2, rfl⟩
  · exact ⟨(zoomInCalc_pres h2).2, rfl⟩
  · exact ⟨(zoomOutCalc_pres h2).2, rfl⟩

lemma applyZoomOps_pres (ops : List ZoomOp) {st : AppState} (h : stateZoomInv st) :
    stateZoomInv (applyZoomOps ops st) := by
  induction ops generalizing st with
  | nil => exact h
  | cons op rest ih => exact ih (applyZoomOp_pres op h)

lemma initApp_emptyStore_zoomInv : stateZoomInv (initApp emptyStore) :=
  ⟨⟨100, rfl, by decide, by decide, by decide⟩,
    ⟨100, rfl, by decide, by decide, by decide⟩⟩

/-- C2: starting from the default zoom values, every sequence of zoom
adjustments (zoom-in / zoom-out on the preview zoom or the editor zoom)
leaves both zoom values inside `[ZOOM_MIN, ZOOM_MAX] = [60, 160]`, and
each further adjustment changes its target value by exactly
`ZOOM_STEP = 10` or leaves it unchanged at a bound, the other zoom value
being untouched. -/
theorem C2_zoom_bound_invariant (ops : List ZoomOp) :
    zoomInRange (applyZoomOps ops (initApp emptyStore)).zoom ∧
    zoomInRange (applyZoomOps ops (initApp emptyStore)).editorZoom ∧
    ∀ op : ZoomOp,
      opAdjusts op (applyZoomOps ops (initApp emptyStore))
        (applyZoomOp op (applyZoomOps ops (initApp emptyStore))) := by
  have h := applyZoomOps_pres ops initApp_emptyStore_zoomInv
  refine ⟨?_, ?_, fun op => applyZoomOp_adjusts op h⟩
  · obtain ⟨⟨n, hn, h1, h2, _⟩, _⟩ := h
    exact ⟨n, hn, h1, h2⟩
  · obtain ⟨_, ⟨n, hn, h1, h2, _⟩⟩ := h
    exact ⟨n, hn, h1, h2⟩

/-- C7: a confirmed `handleClear` sets the document text to the empty
string, a declined one leaves the whole state unchanged, and these two are
the only possible outcomes. -/
theorem C7_clear_semantics (st : AppState) :
    (handleClear true st).markdown = "" ∧
    handleClear false st = st ∧
    ∀ c : Bool, handleClear c st = setText st "" ∨ handleClear c st = st := by
  refine ⟨rfl, rfl, fun c => ?_⟩
  cases c
  · exact Or.inr rfl
  · exact Or.inl rfl

/-- C10: `handleClear` mutates only the document text — the preview zoom,
the editor zoom, the fullscreen flag (and the busy flag) are unchanged
whether the confirmation was accepted or declined. -/
theorem C10_clear_frame (c : Bool) (st : AppState) :
    (handleClear c st).zoom = st.zoom ∧
    (handleClear c st).editorZoom = st.editorZoom ∧
    (handleClear c st).fullscreen = st.fullscreen ∧
    (handleClear c st).pdfLoading = st.pdfLoading := by
  cases c <;> exact ⟨rfl, rfl, rfl, rfl⟩

/-- C6: when an export promise settles, the busy flag `pdfLoading` is
`false` on both the success and the failure path, the document text is
untouched, a failed export writes no file, and starting an export never
changes the document text either. -/
theorem C6_busy_flag_release (ok : Bool) (s : ExportSys) :
    (settlePdf ok s).app.pdfLoading = false ∧
    (settlePdf ok s).app.markdown = s.app.markdown ∧
    (settlePdf false s).downloads = s.downloads ∧
    ∀ b : Bool, (clickDownloadPdf b s).app.markdown = s.app.markdown := by
  refine ⟨rfl, rfl, rfl, fun b => ?_⟩
  simp only [clickDownloadPdf]
  split
  · rfl
  · split
    · rfl
    · rfl

/-- C1 (counterexample): the persistence round-trip fails at `T = ""`.
Committing the empty string and reloading yields `DEFAULT_CONTENT`, not
`""`, because the initializer `localStorage.getItem(STORAGE_KEY) ||
DEFAULT_CONTENT` treats the stored empty string as falsy. -/
theorem C1_roundtrip_counterexample :
    (initApp (persistMarkdown (setText (initApp emptyStore) "") emptyStore)).markdown
      = DEFAULT_CONTENT ∧ DEFAULT_CONTENT ≠ "" := by
  constructor
  · rfl
  · decide

/-- C1 (amended): for every nonempty text `T`, `setText T` followed by
persistence and a reload-from-store yields document text `T`; the empty
string is the one exception, reloading as the built-in sample. -/
theorem C1_roundtrip_amended (store : Store) (st : AppState) (T : String)
    (h : T ≠ "") :
    (initApp (persistMarkdown (setText st T) store)).markdown = T := by
  simp [initApp, persistMarkdown, setText, setItem, getItem, jsOrDefault, h]

theorem C1_roundtrip_amended_witness :
    (initApp (persistMarkdown (setText (initApp emptyStore) "# T") emptyStore)).markdown
      = "# T" :=
  C1_roundtrip_amended emptyStore (initApp emptyStore) "# T" (by decide)

/-- C3 (counterexample): a malformed stored zoom value is not replaced by
the default.  With `"abc"` stored under `ZOOM_KEY`, the initializer
`saved ? Number(saved) : ZOOM_DEFAULT` takes the truthy branch and
`Number("abc")` is NaN, so the session starts with zoom NaN rather than
the default 100. -/
theorem C3_load_fallback_counterexample :
    (initApp (setItem emptyStore ZOOM_KEY "abc")).zoom = JSNum.nan ∧
    JSNum.nan ≠ JSNum.num ZOOM_DEFAULT := by
  constructor
  · rfl
  · decide

/-- C3 (amended): a missing or empty stored value loads as the
compiled-in default for each of the three keys, and a stored nonempty
document text loads verbatim; but a nonempty stored zoom string is used as
`Number(saved)` with no validation, so a non-numeric one loads as NaN, not
as the default. -/
theorem C3_load_fallback_amended (store : Store) :
    (getItem store STORAGE_KEY = none → (initApp store).markdown = DEFAULT_CONTENT) ∧
    (getItem store STORAGE_KEY = some "" → (initApp store).markdown = DEFAULT_CONTENT) ∧
    (∀ s, getItem store STORAGE_KEY = some s → s ≠ "" → (initApp store).markdown = s) ∧
    (getItem store ZOOM_KEY = none → (initApp store).zoom = JSNum.num ZOOM_DEFAULT) ∧
    (getItem store ZOOM_KEY = some "" → (initApp store).zoom = JSNum.num ZOOM_DEFAULT) ∧
    (∀ s, getItem store ZOOM_KEY = some s → s ≠ "" → (initApp store).zoom = jsNumber s) ∧
    (getItem store EDITOR_ZOOM_KEY = none →
      (initApp store).editorZoom = JSNum.num ZOOM_DEFAULT) ∧
    (getItem store EDITOR_ZOOM_KEY = some "" →
      (initApp store).editorZoom = JSNum.num ZOOM_DEFAULT) ∧
    (∀ s, getItem store EDITOR_ZOOM_KEY = some s → s ≠ "" →
      (initApp store).editorZoom = jsNumber s) := by
  refine ⟨fun h => by simp [initApp, jsOrDefault, h],
    fun h => by simp [initApp, jsOrDefault, h],
    fun s h hne => by simp [initApp, jsOrDefault, h, hne],
    fun h => by simp [initApp, jsTernNumber, h],
    fun h => by simp [initApp, jsTernNumber, h],
    fun s h hne => by simp [initApp, jsTernNumber, h, hne],
    fun h => by simp [initApp, jsTernNumber, h],
    fun h => by simp [initApp, jsTernNumber, h],
    fun s h hne => by simp [initApp, jsTernNumber, h, hne]⟩

theorem C3_load_fallback_witness :
    (initApp emptyStore).markdown = DEFAULT_CONTENT ∧
    (initApp emptyStore).zoom = JSNum.num ZOOM_DEFAULT ∧
    (initApp emptyStore).editorZoom = JSNum.num ZOOM_DEFAULT ∧
    (initApp (setItem emptyStore ZOOM_KEY "abc")).zoom = jsNumber "abc" ∧
    (initApp (setItem emptyStore STORAGE_KEY "# T")).markdown = "# T" :=
  ⟨(C3_load_fallback_amended emptyStore).1 rfl,
   (C3_load_fallback_amended emptyStore).2.2.2.1 rfl,
   (C3_load_fallback_amended emptyStore).2.2.2.2.2.2.1 rfl,
   (C3_load_fallback_amended (setItem emptyStore ZOOM_KEY "abc")).2.2.2.2.2.1 "abc"
     rfl (by decide),
   (C3_load_fallback_amended (setItem emptyStore STORAGE_KEY "# T")).2.2.1 "# T"
     rfl (by decide)⟩

/-- C4: import atomicity.  If the selected file is unreadable (its read
rejects, so on the `.docx` path `await file.arrayBuffer()` throws before
`setMarkdown`, and on the plain-text path `onload` never fires), or the
rich-document decode rejects, the document text — indeed the whole state —
is exactly what it was before the failed import. -/
theorem C4_import_atomicity (mam : String → Option String) (td : String → String)
    (f : JSFile) (st : AppState) :
    (f.content = none → handleUpload mam td (some f) st = st) ∧
    (∀ buf, f.content = some buf → jsEndsWith f.name ".docx" = true →
      mam buf = none → handleUpload mam td (some f) st = st) := by
  constructor
  · intro h
    simp only [handleUpload, h]
    split
    · rfl
    · rfl
  · intro buf hc hd hm
    simp only [handleUpload, hc, hd, hm, if_true]

theorem C4_import_atomicity_witness :
    handleUpload (fun _ => none) (fun h => h)
      (some (JSFile.mk "a.docx" none)) (initApp emptyStore) = initApp emptyStore ∧
    handleUpload (fun _ => none) (fun h => h)
      (some (JSFile.mk "b.docx" (some "x"))) (initApp emptyStore) = initApp emptyStore :=
  ⟨(C4_import_atomicity (fun _ => none) (fun h => h) (JSFile.mk "a.docx" none)
      (initApp emptyStore)).1 rfl,
   (C4_import_atomicity (fun _ => none) (fun h => h) (JSFile.mk "b.docx" (some "x"))
      (initApp emptyStore)).2 "x" rfl (by decide) rfl⟩

/-- C5: export reentrancy.  From an idle state, a first click on the
export button starts one export; a second click issued before the first
promise settles is a no-op, because the button is rendered with
`disabled={pdfLoading}` and the busy flag is already set.  When the one
in-flight export settles successfully, exactly one file has been
downloaded. -/
theorem C5_export_reentrancy (s : ExportSys) (h : s.app.pdfLoading = false) :
    clickDownloadPdf true (clickDownloadPdf true s) = clickDownloadPdf true s ∧
    (settlePdf true (clickDownloadPdf true (clickDownloadPdf true s))).downloads
      = s.downloads + 1 ∧
    (settlePdf true (clickDownloadPdf true (clickDownloadPdf true s))).app.pdfLoading
      = false ∧
    (settlePdf true (clickDownloadPdf true (clickDownloadPdf true s))).inFlight
      = s.inFlight := by
  have h1 : clickDownloadPdf true s =
      { s with app := { s.app with pdfLoading := true }, inFlight := s.inFlight + 1 } := by
    simp [clickDownloadPdf, h]
  have h2 : clickDownloadPdf true (clickDownloadPdf true s) = clickDownloadPdf true s := by
    rw [h1]
    simp [clickDownloadPdf]
  refine ⟨h2, ?_, ?_, ?_⟩ <;> rw [h2, h1] <;> simp [settlePdf]

theorem C5_export_reentrancy_witness :
    (settlePdf true (clickDownloadPdf true (clickDownloadPdf true
      (ExportSys.mk (initApp emptyStore) 0 0)))).downloads = 1 :=
  (C5_export_reentrancy (ExportSys.mk (initApp emptyStore) 0 0) rfl).2.1

/-- C8: the import path is classified solely by the filename extension: a
name not ending in `.docx` takes the plain-text path, on which the decoded
file content becomes the document text verbatim and the rich-document
libraries are never consulted (the result is the same for any mammoth /
turndown behaviour); a name ending in `.docx` takes the rich-document
path, whose result is the turndown conversion of the mammoth output. -/
theorem C8_extension_dispatch (mam mam2 : String → Option String)
    (td td2 : String → String) (f : JSFile) (st : AppState) (t : String) :
    (jsEndsWith f.name ".docx" = false → f.content = some t →
      handleUpload mam td (some f) st = setText st t ∧
      handleUpload mam td (some f) st = handleUpload mam2 td2 (some f) st) ∧
    (∀ h, jsEndsWith f.name ".docx" = true → f.content = some t → mam t = some h →
      handleUpload mam td (some f) st = setText st (td h)) := by
  constructor
  · intro hd hc
    constructor
    · simp [handleUpload, hd, hc]
    · simp [handleUpload, hd, hc]
  · intro h hd hc hm
    simp [handleUpload, hd, hc, hm]

theorem C8_extension_dispatch_witness :
    handleUpload (fun _ => none) (fun _ => "A")
      (some (JSFile.mk "hello.md" (some "# Hello"))) (initApp emptyStore)
      = setText (initApp emptyStore) "# Hello" ∧
    handleUpload (fun _ => none) (fun _ => "A")
      (some (JSFile.mk "hello.md" (some "# Hello"))) (initApp emptyStore)
      = handleUpload (fun _ => some "B") (fun _ => "C")
          (some (JSFile.mk "hello.md" (some "# Hello"))) (initApp emptyStore) ∧
    handleUpload (fun _ => some "HTML") (fun _ => "MD")
      (some (JSFile.mk "doc.docx" (some "buf"))) (initApp emptyStore)
      = setText (initApp emptyStore) "MD" :=
  ⟨((C8_extension_dispatch (fun _ => none) (fun _ => some "B") (fun _ => "A")
      (fun _ => "C") (JSFile.mk "hello.md" (some "# Hello")) (initApp emptyStore)
      "# Hello").1 (by decide) rfl).1,
   ((C8_extension_dispatch (fun _ => none) (fun _ => some "B") (fun _ => "A")
      (fun _ => "C") (JSFile.mk "hello.md" (some "# Hello")) (initApp emptyStore)
      "# Hello").1 (by decide) rfl).2,
   (C8_extension_dispatch (fun _ => some "HTML") (fun _ => none) (fun _ => "MD")
      (fun _ => "X") (JSFile.mk "doc.docx" (some "buf")) (initApp emptyStore)
      "buf").2 "HTML" (by decide) rfl rfl⟩

/-- C9 (implicit): a zoom value read back from storage is used as
`Number(saved)` without any clamping, so a stored value above `ZOOM_MAX`
is loaded as-is; and since `handleZoomOut` clamps only at `ZOOM_MIN`, one
zoom-out from such a value merely subtracts `ZOOM_STEP` and, whenever the
stored value exceeds `ZOOM_MAX + ZOOM_STEP`, the result is still above
`ZOOM_MAX`. -/
theorem C9_unclamped_zoom_load (store : Store) (s : String) (n : Int)
    (hget : getItem store ZOOM_KEY = some s) (hnum : jsNumber s = JSNum.num n)
    (hgt : ZOOM_MAX + ZOOM_STEP < n) :
    (initApp store).zoom = JSNum.num n ∧
    ZOOM_MAX < n ∧
    (handleZoomOut (initApp store)).zoom = JSNum.num (n - ZOOM_STEP) ∧
    ZOOM_MAX < n - ZOOM_STEP := by
  simp only [ZOOM_MAX, ZOOM_STEP] at hgt ⊢
  have hne : s ≠ "" := by
    intro he
    subst he
    simp [jsNumber] at hnum
    omega
  have hz : (initApp store).zoom = JSNum.num n := by
    simp [initApp, jsTernNumber, hget, hne, hnum]
  refine ⟨hz, by omega, ?_, by omega⟩
  have hcalc : (handleZoomOut (initApp store)).zoom = zoomOutCalc (initApp store).zoom := rfl
  rw [hcalc, hz, zoomOutCalc_num]
  simp only [ZOOM_MIN, ZOOM_STEP]
  rw [max_eq_left (by omega)]

theorem C9_unclamped_zoom_load_witness :
    (initApp (setItem emptyStore ZOOM_KEY "200")).zoom = JSNum.num 200 ∧
    ZOOM_MAX < 200 ∧
    (handleZoomOut (initApp (setItem emptyStore ZOOM_KEY "200"))).zoom
      = JSNum.num (200 - ZOOM_STEP) ∧
    ZOOM_MAX < 200 - ZOOM_STEP :=
  C9_unclamped_zoom_load (setItem emptyStore ZOOM_KEY "200") "200" 200 rfl
    (by decide) (by decide)
